import Mathlib

/-!
Shallow embedding of the LicenseDb obligation core:
the optional/nullable JSON field decoders and the NullString wire adapter
(`pkg/models`), and the obligation CRUD handlers with their change-diff /
audit recorder (`pkg/api/obligations.go`).

Conventions of the embedding:
* Go's `encoding/json` values are modelled by the inductive `Jsn`; a struct
  field that is absent from the document is `Option.none` (Go never calls
  `UnmarshalJSON` for absent keys, leaving the receiver zero-valued).
* Fallible Go code returns `Except String _`; the error string is the Go
  error message.
* The MD5 digest (`crypto/md5` + `hex`) is an external library call; it is
  passed in as an arbitrary function `md5hex : String → String`, since every
  behaviour of interest depends only on equality of digests.
* `gorm` persistence is modelled by explicit list-valued database state
  (`DBState`); a transaction that returns an error leaves the state unchanged.
* Wall-clock timestamps (`time.Now`) are dropped from the audit model; no
  claim mentions them.
-/

deriving instance DecidableEq for Except

namespace LicenseDb

/-- A JSON value, as seen by Go's `encoding/json`. -/
inductive Jsn where
  | null : Jsn
  | str (s : String) : Jsn
  | bool (b : Bool) : Jsn
  | num (n : Int) : Jsn
  deriving DecidableEq, Repr

/-- The three states a decoded optional/nullable field can resolve to. -/
inductive FieldState (T : Type) where
  | undefined : FieldState T
  | null : FieldState T
  | present (v : T) : FieldState T
  deriving DecidableEq, Repr

/-- `models.OptionalNullableData[T]`: generic wrapper distinguishing
undefined, null and present values during JSON decoding (`pkg/models`,
`OptionalNullableData`). The unexported `rawJson` buffer is not part of the
observable state and is omitted. -/
structure OptionalNullableData (T : Type) where
  IsNull : Bool
  IsNotUndefined : Bool
  Value : T
  deriving DecidableEq, Repr

/-- `models.OptionalData[T]`: like `OptionalNullableData` but rejecting
explicit null (`pkg/models`, `OptionalData`). -/
structure OptionalData (T : Type) where
  IsNotUndefined : Bool
  Value : T
  deriving DecidableEq, Repr

/-- The observable tri-state of a decoded `OptionalNullableData`. -/
def OptionalNullableData.state {T : Type} (d : OptionalNullableData T) :
    FieldState T :=
  if d.IsNotUndefined then
    if d.IsNull then FieldState.null else FieldState.present d.Value
  else FieldState.undefined

/-- The observable state of a decoded `OptionalData` (null is impossible). -/
def OptionalData.state {T : Type} (d : OptionalData T) : FieldState T :=
  if d.IsNotUndefined then FieldState.present d.Value else FieldState.undefined

/-- `OptionalNullableData.UnmarshalJSON`: called by `encoding/json` only when
the key is present, with `data` the raw bytes of the value (never empty, so
the `len(v.rawJson) != 0` guard holds). `dec` is the `json.Unmarshal` of the
element type `T`; `v` is the receiver (zero-valued in practice). -/
def OptionalNullableData.unmarshalJSON {T : Type}
    (dec : Jsn → Except String T) (v : OptionalNullableData T) (data : Jsn) :
    Except String (OptionalNullableData T) :=
  -- v.IsNotUndefined = true is set before decoding the payload.
  let v := { v with IsNotUndefined := true }
  match data with
  | Jsn.null => Except.ok { v with IsNull := true }
  | j =>
    match dec j with
    | Except.error e => Except.error e
    | Except.ok x => Except.ok { v with Value := x }

/-- `OptionalData.UnmarshalJSON`: explicit null is a decode error; the
`IsNotUndefined` flag is set only after a successful decode. -/
def OptionalData.unmarshalJSON {T : Type}
    (dec : Jsn → Except String T) (v : OptionalData T) (data : Jsn) :
    Except String (OptionalData T) :=
  match data with
  | Jsn.null => Except.error "field value cannot be null"
  | j =>
    match dec j with
    | Except.error e => Except.error e
    | Except.ok x => Except.ok { v with Value := x, IsNotUndefined := true }

/-- Decoding one field of a document into `OptionalNullableData`: an absent
key (`none`) never invokes `UnmarshalJSON` and leaves the zero value; a
present key invokes it on the raw value. `z` is the zero value of `T`. -/
def decodeOptionalNullableField {T : Type}
    (dec : Jsn → Except String T) (z : T) (field : Option Jsn) :
    Except String (OptionalNullableData T) :=
  match field with
  | none => Except.ok ⟨false, false, z⟩
  | some j => OptionalNullableData.unmarshalJSON dec ⟨false, false, z⟩ j

/-- Decoding one field of a document into `OptionalData`. -/
def decodeOptionalField {T : Type}
    (dec : Jsn → Except String T) (z : T) (field : Option Jsn) :
    Except String (OptionalData T) :=
  match field with
  | none => Except.ok ⟨false, z⟩
  | some j => OptionalData.unmarshalJSON dec ⟨false, z⟩ j

/-- `json.Unmarshal` into a Go `string`. -/
def decodeString : Jsn → Except String String
  | Jsn.str s => Except.ok s
  | _ => Except.error "json: cannot unmarshal value into Go value of type string"

/-- `json.Unmarshal` into a Go `bool`. -/
def decodeBool : Jsn → Except String Bool
  | Jsn.bool b => Except.ok b
  | _ => Except.error "json: cannot unmarshal value into Go value of type bool"

/-- `models.NullString`: wrapper over `sql.NullString` (fields `String`,
`Valid`) with custom JSON transcoding. The Go field `String` is rendered
`Str` here. -/
structure NullString where
  Str : String
  Valid : Bool
  deriving DecidableEq, Repr

/-- `NullString.MarshalJSON`: valid → the string value, invalid → null. -/
def NullString.marshalJSON (v : NullString) : Jsn :=
  if v.Valid then Jsn.str v.Str else Jsn.null

/-- `NullString.UnmarshalJSON`: decodes into `*string`; null or empty string
clears `Valid` (leaving `String` untouched), a non-empty string sets both. -/
def NullString.unmarshalJSON (v : NullString) (data : Jsn) :
    Except String NullString :=
  match data with
  | Jsn.null => Except.ok { v with Valid := false }
  | Jsn.str x =>
    if x = "" then Except.ok { v with Valid := false }
    else Except.ok { Str := x, Valid := true }
  | _ => Except.error "json: cannot unmarshal value into Go value of type *string"

/-- `models.Obligation`: the obligation table row. The Go field `Type` is
rendered `Typ` here (`Type` is not a Lean identifier). -/
structure Obligation where
  Id : Int
  Topic : String
  Typ : String
  Text : String
  Classification : String
  Comment : NullString
  Modifications : Bool
  Active : Bool
  TextUpdatable : Bool
  Md5 : String
  deriving DecidableEq, Repr

/-- `models.ChangeLog`: one field-level change inside an audit record. -/
structure ChangeLog where
  Field : String
  OldValue : Option String
  UpdatedValue : Option String
  deriving DecidableEq, Repr

/-- `models.Audit`: one audit record (the `Timestamp` field is wall-clock
time and is omitted from the model). The Go field `Type` is rendered `Typ`. -/
structure Audit where
  UserId : Int
  TypeId : Int
  Typ : String
  ChangeLogs : List ChangeLog
  deriving DecidableEq, Repr

/-- `models.User` (the part `UpdateObligation` reads: id and username). -/
structure User where
  Id : Int
  Username : String
  deriving DecidableEq, Repr

/-- `models.LicenseDB` (the part `CreateObligation` reads). -/
structure LicenseDB where
  Id : Int
  Shortname : String
  deriving DecidableEq, Repr

/-- `models.ObligationMap`: join record linking an obligation to a license. -/
structure ObligationMap where
  ObligationPk : Int
  RfPk : Int
  deriving DecidableEq, Repr

/-- `models.ObligationPOSTRequestJSONSchema`: a successfully bound create
request body. -/
structure ObligationPOSTRequestJSONSchema where
  Topic : String
  Typ : String
  Text : String
  Classification : String
  Comment : NullString
  Modifications : Bool
  Active : Bool
  Shortnames : List String
  deriving DecidableEq, Repr

/-- `models.ObligationPATCHRequestJSONSchema`: a successfully bound partial
update body. The wrapper kinds follow the handler's field accesses: `Comment`
exposes `IsNull` (so it is `OptionalNullableData`), the rest expose only
`IsNotUndefined`/`Value` (`OptionalData`). -/
structure ObligationPATCHRequestJSONSchema where
  Topic : OptionalData String
  Typ : OptionalData String
  Text : OptionalData String
  Classification : OptionalData String
  Comment : OptionalNullableData String
  Modifications : OptionalData Bool
  Active : OptionalData Bool
  TextUpdatable : OptionalData Bool
  deriving DecidableEq, Repr

/-- The sparse update map `newObligationMap` built by `UpdateObligation`:
one optional slot per possible key of the Go `map[string]interface{}`. -/
structure ObligationUpdateMap where
  md5 : Option String := none
  text : Option String := none
  typ : Option String := none
  classification : Option String := none
  modifications : Option Bool := none
  comment : Option NullString := none
  active : Option Bool := none
  text_updatable : Option Bool := none
  deriving DecidableEq, Repr

/-- Error outcomes of the handlers, tagged with the HTTP status and message
of the `models.LicenseError` the Go code emits; `runtimePanic` is a Go
runtime panic escaping the handler (the router's recovery middleware turns
it into a 500 response). -/
inductive HandlerError where
  | notFound (message : String)
  | badRequest (message : String)
  | conflict (message : String)
  | internal (message : String)
  | runtimePanic (message : String)
  deriving DecidableEq, Repr

/-- The validation phase of `UpdateObligation` (obligations.go:265-333):
checks the text-update policy and the non-emptiness of `type` and
`classification`, and builds the sparse `newObligationMap`. -/
def buildObligationUpdateMap (md5hex : String → String)
    (oldObligation : Obligation)
    (updates : ObligationPATCHRequestJSONSchema) :
    Except HandlerError ObligationUpdateMap :=
  if updates.Text.Value ≠ "" ∧ ¬oldObligation.TextUpdatable ∧
      updates.Text.Value ≠ oldObligation.Text then
    Except.error (HandlerError.badRequest "Can not update obligation text")
  else
    let m : ObligationUpdateMap := {}
    let m :=
      if oldObligation.TextUpdatable ∧
          (updates.Text.Value ≠ "" ∧ updates.Text.Value ≠ oldObligation.Text) then
        { m with md5 := some (md5hex updates.Text.Value),
                 text := some updates.Text.Value }
      else m
    if updates.Typ.IsNotUndefined ∧ updates.Typ.Value = "" then
      Except.error (HandlerError.badRequest "Type cannot be an empty string")
    else
      let m :=
        if updates.Typ.IsNotUndefined then { m with typ := some updates.Typ.Value }
        else m
      if updates.Classification.IsNotUndefined ∧
          updates.Classification.Value = "" then
        Except.error
          (HandlerError.badRequest "Classification cannot be an empty string")
      else
        let m :=
          if updates.Classification.IsNotUndefined then
            { m with classification := some updates.Classification.Value }
          else m
        let m :=
          if updates.Modifications.IsNotUndefined then
            { m with modifications := some updates.Modifications.Value }
          else m
        let m :=
          if updates.Comment.IsNotUndefined then
            -- var comment models.NullString (zero value), then filled
            -- only when the update is non-null.
            let comment : NullString :=
              if ¬updates.Comment.IsNull then
                { Str := updates.Comment.Value, Valid := true }
              else { Str := "", Valid := false }
            { m with comment := some comment }
          else m
        let m :=
          if updates.Active.IsNotUndefined then
            { m with active := some updates.Active.Value }
          else m
        let m :=
          if updates.TextUpdatable.IsNotUndefined then
            { m with text_updatable := some updates.TextUpdatable.Value }
          else m
        Except.ok m

/-- `tx.Model(&newObligation).Clauses(clause.Returning{}).Updates(map)`:
the row identified by the old row's id, with the map's columns overwritten,
as returned by the RETURNING clause. -/
def applyObligationUpdateMap (oldRow : Obligation) (m : ObligationUpdateMap) :
    Obligation :=
  { oldRow with
    Md5 := m.md5.getD oldRow.Md5
    Text := m.text.getD oldRow.Text
    Typ := m.typ.getD oldRow.Typ
    Classification := m.classification.getD oldRow.Classification
    Modifications := m.modifications.getD oldRow.Modifications
    Comment := m.comment.getD oldRow.Comment
    Active := m.active.getD oldRow.Active
    TextUpdatable := m.text_updatable.getD oldRow.TextUpdatable }

/-- The change-diff recorder of `UpdateObligation` (obligations.go:362-434):
compares the pre-update snapshot with the returned row field by field, in
source order, appending one `ChangeLog` per differing field. The
`Classification` block is translated exactly as written: its logged values
come from `strconv.FormatBool` of the `Modifications` field. -/
def obligationChangeLogs (oldObligation newObligation : Obligation) :
    List ChangeLog :=
  (if oldObligation.Topic ≠ newObligation.Topic then
    [{ Field := "Topic", OldValue := some oldObligation.Topic,
       UpdatedValue := some newObligation.Topic }]
  else []) ++
  (if oldObligation.Typ ≠ newObligation.Typ then
    [{ Field := "Type", OldValue := some oldObligation.Typ,
       UpdatedValue := some newObligation.Typ }]
  else []) ++
  (if oldObligation.Text ≠ newObligation.Text then
    [{ Field := "Text", OldValue := some oldObligation.Text,
       UpdatedValue := some newObligation.Text }]
  else []) ++
  (if oldObligation.Classification ≠ newObligation.Classification then
    [{ Field := "Classification",
       OldValue := some (toString oldObligation.Modifications),
       UpdatedValue := some (toString newObligation.Modifications) }]
  else []) ++
  (if oldObligation.Modifications ≠ newObligation.Modifications then
    [{ Field := "Modifications",
       OldValue := some (toString oldObligation.Modifications),
       UpdatedValue := some (toString newObligation.Modifications) }]
  else []) ++
  (if oldObligation.Comment ≠ newObligation.Comment then
    [{ Field := "Comment",
       OldValue := if oldObligation.Comment.Valid then
         some oldObligation.Comment.Str else none,
       UpdatedValue := if newObligation.Comment.Valid then
         some newObligation.Comment.Str else none }]
  else []) ++
  (if oldObligation.Active ≠ newObligation.Active then
    [{ Field := "Active", OldValue := some (toString oldObligation.Active),
       UpdatedValue := some (toString newObligation.Active) }]
  else []) ++
  (if oldObligation.TextUpdatable ≠ newObligation.TextUpdatable then
    [{ Field := "TextUpdatable",
       OldValue := some (toString oldObligation.TextUpdatable),
       UpdatedValue := some (toString newObligation.TextUpdatable) }]
  else [])

/-- The database state the obligation handlers touch. -/
structure DBState where
  obligations : List Obligation
  audits : List Audit
  users : List User
  licenses : List LicenseDB
  obligationMaps : List ObligationMap
  deriving DecidableEq, Repr

/-- Fresh primary key for an inserted obligation row (a storage-collaborator
detail; no claim depends on the numbering scheme). -/
def DBState.nextObligationId (db : DBState) : Int :=
  (db.obligations.map Obligation.Id).foldr max 0 + 1

/-- `api.UpdateObligation` (obligations.go:233-469), after a successful JSON
bind: everything runs inside one `db.DB.Transaction`, so any error leaves the
database unchanged. Returns the new state and either the updated row or the
error response. -/
def UpdateObligation (md5hex : String → String) (db : DBState)
    (username topic : String) (updates : ObligationPATCHRequestJSONSchema) :
    DBState × Except HandlerError Obligation :=
  match db.obligations.find? (fun o => o.Topic = topic) with
  | none =>
    (db, Except.error (HandlerError.notFound
      ("obligation with topic '" ++ topic ++ "' not found")))
  | some oldObligation =>
    match buildObligationUpdateMap md5hex oldObligation updates with
    | Except.error e => (db, Except.error e)
    | Except.ok m =>
      let newObligation := applyObligationUpdateMap oldObligation m
      match db.users.find? (fun u => u.Username = username) with
      | none =>
        -- the row update already ran, but the transaction rolls back
        (db, Except.error (HandlerError.internal "Failed to update license"))
      | some user =>
        let db := { db with
          obligations := db.obligations.map
            (fun o => if o.Id = oldObligation.Id then newObligation else o) }
        let changes := obligationChangeLogs oldObligation newObligation
        let db :=
          if changes ≠ [] then
            { db with audits := db.audits ++
              [{ UserId := user.Id, TypeId := newObligation.Id,
                 Typ := "Obligation", ChangeLogs := changes }] }
          else db
        (db, Except.ok newObligation)

/-- `api.CreateObligation` (obligations.go:138-215), after a successful JSON
bind: computes the digest, runs `FirstOrCreate` keyed on topic-or-digest, and
on an actual insert creates one `ObligationMap` per shortname whose license
exists (a missing license is a silent no-op: the ignored `Create` fails on
the foreign key). New rows always get `TextUpdatable := false`.
On conflict, `FirstOrCreate` has loaded the matched row into `obligation`
and the error detail interpolates `obligation.Text[0:10]`
(obligations.go:178): Go byte-slicing panics when the matched row's text is
shorter than 10 bytes, so the ConflictError is only reached for texts of at
least 10 bytes; shorter ones end in a recovered runtime panic. -/
def CreateObligation (md5hex : String → String) (db : DBState)
    (input : ObligationPOSTRequestJSONSchema) :
    DBState × Except HandlerError Obligation :=
  let md5hash := md5hex input.Text
  match db.obligations.find?
      (fun o => o.Topic = input.Topic ∨ o.Md5 = md5hash) with
  | some found =>
    -- FirstOrCreate found a row: RowsAffected == 0
    if 10 ≤ found.Text.utf8ByteSize then
      (db, Except.error (HandlerError.conflict
        "can not create obligation with same topic or text"))
    else
      (db, Except.error (HandlerError.runtimePanic
        "slice bounds out of range"))
  | none =>
    let obligation : Obligation :=
      { Id := db.nextObligationId
        Md5 := md5hash
        Typ := input.Typ
        Topic := input.Topic
        Text := input.Text
        Classification := input.Classification
        Comment := input.Comment
        Modifications := input.Modifications
        Active := input.Active
        TextUpdatable := false }
    let db := { db with obligations := db.obligations ++ [obligation] }
    let newMaps := input.Shortnames.filterMap (fun i =>
      match db.licenses.find? (fun l => l.Shortname = i) with
      | some license =>
        some { ObligationPk := obligation.Id, RfPk := license.Id }
      | none => none)
    let db := { db with obligationMaps := db.obligationMaps ++ newMaps }
    (db, Except.ok obligation)

/-- `api.DeleteObligation` (obligations.go:484-501): loads the row by topic
(404 if absent), clears `Active` and saves the loaded row directly — no
transaction, no diff, no audit write. -/
def DeleteObligation (db : DBState) (topic : String) :
    DBState × Except HandlerError Unit :=
  match db.obligations.find? (fun o => o.Topic = topic) with
  | none =>
    (db, Except.error (HandlerError.notFound
      ("obligation with topic '" ++ topic ++ "' not found")))
  | some obligation =>
    let obligation := { obligation with Active := false }
    let saved := db.obligations.map
      (fun o => if o.Id = obligation.Id then obligation else o)
    ({ db with obligations := saved }, Except.ok ())

/-! ## Theorems -/

/-- C3: for every document and every field decoded into
`OptionalNullableData T`: an absent field yields state undefined with no
error; a field present with explicit null yields state null with no error;
a field present with a value decodes it as `T`, yielding state
`present value` on success and the decode error on type mismatch. -/
theorem optionalNullable_field_tristate {T : Type}
    (dec : Jsn → Except String T) (z v : T) (j jbad : Jsn) (e : String) :
    ((decodeOptionalNullableField dec z none).map OptionalNullableData.state
      = Except.ok (FieldState.undefined))
    ∧ ((decodeOptionalNullableField dec z (some Jsn.null)).map
        OptionalNullableData.state = Except.ok (FieldState.null))
    ∧ (j ≠ Jsn.null → dec j = Except.ok v →
        (decodeOptionalNullableField dec z (some j)).map
          OptionalNullableData.state = Except.ok (FieldState.present v))
    ∧ (jbad ≠ Jsn.null → dec jbad = Except.error e →
        decodeOptionalNullableField dec z (some jbad) = Except.error e) := by
  refine ⟨rfl, rfl, ?_, ?_⟩
  · intro hj hdec
    cases j with
    | null => exact absurd rfl hj
    | str s =>
      simp [decodeOptionalNullableField, OptionalNullableData.unmarshalJSON,
        hdec, OptionalNullableData.state, Except.map]
    | bool b =>
      simp [decodeOptionalNullableField, OptionalNullableData.unmarshalJSON,
        hdec, OptionalNullableData.state, Except.map]
    | num n =>
      simp [decodeOptionalNullableField, OptionalNullableData.unmarshalJSON,
        hdec, OptionalNullableData.state, Except.map]
  · intro hj hdec
    cases jbad with
    | null => exact absurd rfl hj
    | str s =>
      simp [decodeOptionalNullableField, OptionalNullableData.unmarshalJSON, hdec]
    | bool b =>
      simp [decodeOptionalNullableField, OptionalNullableData.unmarshalJSON, hdec]
    | num n =>
      simp [decodeOptionalNullableField, OptionalNullableData.unmarshalJSON, hdec]

/-- C3 witness: concrete instances over `String` fields: `{}`,
`{"f": null}`, `{"f": "x"}` and `{"f": true}` (a type mismatch). -/
theorem optionalNullable_field_tristate_witness :
    ((decodeOptionalNullableField decodeString "" none).map
      OptionalNullableData.state = Except.ok (FieldState.undefined))
    ∧ ((decodeOptionalNullableField decodeString "" (some Jsn.null)).map
        OptionalNullableData.state = Except.ok (FieldState.null))
    ∧ ((decodeOptionalNullableField decodeString "" (some (Jsn.str "x"))).map
        OptionalNullableData.state = Except.ok (FieldState.present "x"))
    ∧ (decodeOptionalNullableField decodeString "" (some (Jsn.bool true))
        = Except.error
          "json: cannot unmarshal value into Go value of type string") := by
  have h := optionalNullable_field_tristate decodeString "" "x"
    (Jsn.str "x") (Jsn.bool true)
    "json: cannot unmarshal value into Go value of type string"
  exact ⟨h.1, h.2.1, h.2.2.1 (by decide) rfl, h.2.2.2 (by decide) rfl⟩

/-- C4: decoding a field present with explicit null into `OptionalData T`
fails with the decode error "field value cannot be null"; an absent field
yields state undefined with no error; a present non-null value decodes as
`T` and yields state `present value` on success. -/
theorem optional_field_rejects_null {T : Type}
    (dec : Jsn → Except String T) (z v : T) (j : Jsn) :
    (decodeOptionalField dec z (some Jsn.null)
      = Except.error "field value cannot be null")
    ∧ ((decodeOptionalField dec z none).map OptionalData.state
      = Except.ok (FieldState.undefined))
    ∧ (j ≠ Jsn.null → dec j = Except.ok v →
        (decodeOptionalField dec z (some j)).map OptionalData.state
          = Except.ok (FieldState.present v)) := by
  refine ⟨rfl, rfl, ?_⟩
  intro hj hdec
  cases j with
  | null => exact absurd rfl hj
  | str s =>
    simp [decodeOptionalField, OptionalData.unmarshalJSON, hdec,
      OptionalData.state, Except.map]
  | bool b =>
    simp [decodeOptionalField, OptionalData.unmarshalJSON, hdec,
      OptionalData.state, Except.map]
  | num n =>
    simp [decodeOptionalField, OptionalData.unmarshalJSON, hdec,
      OptionalData.state, Except.map]

/-- C4 witness: concrete instances over a `String` field: `{"f": null}`
errors, `{}` is undefined, `{"f": "x"}` is present("x"). -/
theorem optional_field_rejects_null_witness :
    (decodeOptionalField decodeString "" (some Jsn.null)
      = Except.error "field value cannot be null")
    ∧ ((decodeOptionalField decodeString "" none).map OptionalData.state
      = Except.ok (FieldState.undefined))
    ∧ ((decodeOptionalField decodeString "" (some (Jsn.str "x"))).map
        OptionalData.state = Except.ok (FieldState.present "x")) := by
  have h := optional_field_rejects_null decodeString "" "x" (Jsn.str "x")
  exact ⟨h.1, h.2.1, h.2.2 (by decide) rfl⟩

/-- C8: `NullString` wire transcoding: encoding a valid string yields the
string value and encoding an invalid one yields null; decoding null or the
empty string yields the invalid state, and decoding a non-empty string
yields the valid state carrying that value. -/
theorem nullString_wire_adapter (ns1 ns2 v1 v2 v3 : NullString) (s : String) :
    (ns1.Valid = true → ns1.marshalJSON = Jsn.str ns1.Str)
    ∧ (ns2.Valid = false → ns2.marshalJSON = Jsn.null)
    ∧ (∃ r, v1.unmarshalJSON Jsn.null = Except.ok r ∧ r.Valid = false)
    ∧ (∃ r, v2.unmarshalJSON (Jsn.str "") = Except.ok r ∧ r.Valid = false)
    ∧ (s ≠ "" → v3.unmarshalJSON (Jsn.str s)
        = Except.ok { Str := s, Valid := true }) := by
  refine ⟨?_, ?_, ?_, ?_, ?_⟩
  · intro h; simp [NullString.marshalJSON, h]
  · intro h; simp [NullString.marshalJSON, h]
  · exact ⟨{ v1 with Valid := false }, rfl, rfl⟩
  · exact ⟨{ v2 with Valid := false }, by simp [NullString.unmarshalJSON], rfl⟩
  · intro hs; simp [NullString.unmarshalJSON, hs]

/-- C8 witness: concrete round trips: `{"c", true}` encodes to `"c"`,
`{"", false}` encodes to null, and null / `""` / `"x"` decode to invalid,
invalid, valid("x"). -/
theorem nullString_wire_adapter_witness :
    (NullString.marshalJSON { Str := "c", Valid := true } = Jsn.str "c")
    ∧ (NullString.marshalJSON { Str := "", Valid := false } = Jsn.null)
    ∧ (∃ r, NullString.unmarshalJSON { Str := "", Valid := false } Jsn.null
        = Except.ok r ∧ r.Valid = false)
    ∧ (∃ r, NullString.unmarshalJSON { Str := "", Valid := false } (Jsn.str "")
        = Except.ok r ∧ r.Valid = false)
    ∧ (NullString.unmarshalJSON { Str := "", Valid := false } (Jsn.str "x")
      = Except.ok { Str := "x", Valid := true }) := by
  have h := nullString_wire_adapter { Str := "c", Valid := true }
    { Str := "", Valid := false } { Str := "", Valid := false }
    { Str := "", Valid := false } { Str := "", Valid := false } "x"
  exact ⟨h.1 rfl, h.2.1 rfl, h.2.2.1, h.2.2.2.1, h.2.2.2.2 (by decide)⟩

/-- C1 (code bug): when only `Classification` changes (here "GREEN" →
"RED", with `Modifications = false` on both sides), the change log entry for
the field "Classification" records `strconv.FormatBool` of the
`Modifications` field — "false"/"false" — instead of the old and new
classification strings, exactly as obligations.go:385-393 is written. -/
theorem classification_changelog_renders_modifications_bool :
    obligationChangeLogs
      { Id := 1, Topic := "T", Typ := "ty", Text := "tx",
        Classification := "GREEN", Comment := { Str := "", Valid := false },
        Modifications := false, Active := true, TextUpdatable := false,
        Md5 := "m" }
      { Id := 1, Topic := "T", Typ := "ty", Text := "tx",
        Classification := "RED", Comment := { Str := "", Valid := false },
        Modifications := false, Active := true, TextUpdatable := false,
        Md5 := "m" }
      = [{ Field := "Classification", OldValue := some "false",
           UpdatedValue := some "false" }]
    ∧ some "false" ≠ some "GREEN" ∧ some "false" ≠ some "RED" := by
  refine ⟨?_, by decide, by decide⟩
  decide

/-- The diff list is empty exactly when every tracked field agrees between
the snapshot and the updated row. -/
theorem obligationChangeLogs_eq_nil_iff (o n : Obligation) :
    obligationChangeLogs o n = [] ↔
      (o.Topic = n.Topic ∧ o.Typ = n.Typ ∧ o.Text = n.Text ∧
       o.Classification = n.Classification ∧
       o.Modifications = n.Modifications ∧ o.Comment = n.Comment ∧
       o.Active = n.Active ∧ o.TextUpdatable = n.TextUpdatable) := by
  simp [obligationChangeLogs, List.append_eq_nil, ite_eq_right_iff]

/-- The sequence of logged field names, block by block. -/
theorem obligationChangeLogs_map_field (o n : Obligation) :
    (obligationChangeLogs o n).map ChangeLog.Field =
      (if o.Topic ≠ n.Topic then ["Topic"] else []) ++
      (if o.Typ ≠ n.Typ then ["Type"] else []) ++
      (if o.Text ≠ n.Text then ["Text"] else []) ++
      (if o.Classification ≠ n.Classification then ["Classification"] else []) ++
      (if o.Modifications ≠ n.Modifications then ["Modifications"] else []) ++
      (if o.Comment ≠ n.Comment then ["Comment"] else []) ++
      (if o.Active ≠ n.Active then ["Active"] else []) ++
      (if o.TextUpdatable ≠ n.TextUpdatable then ["TextUpdatable"] else []) := by
  simp only [obligationChangeLogs, List.map_append,
    apply_ite (List.map ChangeLog.Field), List.map_cons, List.map_nil]

/-- Any interleaving of the eight per-field singleton blocks equals the
canonical name sequence restricted to the names that occur. -/
theorem canonical_field_filter_aux (b1 b2 b3 b4 b5 b6 b7 b8 : Bool) :
    (cond b1 ["Topic"] [] ++ cond b2 ["Type"] [] ++ cond b3 ["Text"] [] ++
     cond b4 ["Classification"] [] ++ cond b5 ["Modifications"] [] ++
     cond b6 ["Comment"] [] ++ cond b7 ["Active"] [] ++
     cond b8 ["TextUpdatable"] []) =
      ["Topic", "Type", "Text", "Classification", "Modifications",
       "Comment", "Active", "TextUpdatable"].filter
        (fun f => f ∈
          (cond b1 ["Topic"] [] ++ cond b2 ["Type"] [] ++
           cond b3 ["Text"] [] ++ cond b4 ["Classification"] [] ++
           cond b5 ["Modifications"] [] ++ cond b6 ["Comment"] [] ++
           cond b7 ["Active"] [] ++ cond b8 ["TextUpdatable"] [])) := by
  cases b1 <;> cases b2 <;> cases b3 <;> cases b4 <;> cases b5 <;>
    cases b6 <;> cases b7 <;> cases b8 <;> decide

/-- C7: when several tracked fields change at once, the change log entries
appear in the fixed source order topic, type, text, classification,
modifications, comment, active, text-updatable: the sequence of logged field
names is exactly the canonical sequence restricted to the names that were
logged. -/
theorem changelog_entries_fixed_order (o n : Obligation) :
    (obligationChangeLogs o n).map ChangeLog.Field =
      ["Topic", "Type", "Text", "Classification", "Modifications",
       "Comment", "Active", "TextUpdatable"].filter
        (fun f => f ∈ (obligationChangeLogs o n).map ChangeLog.Field) := by
  rw [obligationChangeLogs_map_field]
  simp only [← Bool.cond_decide]
  exact canonical_field_filter_aux _ _ _ _ _ _ _ _

/-- Characterization of a successful `UpdateObligation` run: the update map
validated, the acting user resolved, the returned row is the snapshot with
the map applied, and the audit list is extended by one record exactly when
the diff list is non-empty. -/
theorem UpdateObligation_ok_spec (md5hex : String → String) (db : DBState)
    (username topic : String) (updates : ObligationPATCHRequestJSONSchema)
    (db' : DBState) (newOb oldOb : Obligation)
    (hold : db.obligations.find? (fun o => o.Topic = topic) = some oldOb)
    (hrun : UpdateObligation md5hex db username topic updates
      = (db', Except.ok newOb)) :
    (∃ m, buildObligationUpdateMap md5hex oldOb updates = Except.ok m ∧
      newOb = applyObligationUpdateMap oldOb m)
    ∧ (obligationChangeLogs oldOb newOb = [] → db'.audits = db.audits)
    ∧ (obligationChangeLogs oldOb newOb ≠ [] →
        ∃ a, db'.audits = db.audits ++ [a] ∧
          a.ChangeLogs = obligationChangeLogs oldOb newOb) := by
  simp only [UpdateObligation, hold] at hrun
  cases hb : buildObligationUpdateMap md5hex oldOb updates with
  | error e => simp [hb] at hrun
  | ok m =>
    simp only [hb] at hrun
    cases hu : db.users.find? (fun u => u.Username = username) with
    | none => simp [hu] at hrun
    | some user =>
      simp only [hu] at hrun
      injection hrun with hdb hob
      injection hob with hob
      subst hob
      refine ⟨⟨m, rfl, rfl⟩, ?_, ?_⟩
      · intro hnil
        subst hdb
        simp [hnil]
      · intro hne
        subst hdb
        refine ⟨{ UserId := user.Id,
                  TypeId := (applyObligationUpdateMap oldOb m).Id,
                  Typ := "Obligation",
                  ChangeLogs := obligationChangeLogs oldOb
                    (applyObligationUpdateMap oldOb m) }, ?_, rfl⟩
        simp [hne]

/-- C6: for a successful update, an audit record is persisted iff at least
one tracked field differs between the pre-update snapshot and the post-update
row; when nothing differs (a no-op update) the audit list is untouched and
the diff list is empty. -/
theorem update_audit_iff_tracked_change (md5hex : String → String)
    (db : DBState) (username topic : String)
    (updates : ObligationPATCHRequestJSONSchema) (db' : DBState)
    (newOb oldOb : Obligation)
    (hold : db.obligations.find? (fun o => o.Topic = topic) = some oldOb)
    (hrun : UpdateObligation md5hex db username topic updates
      = (db', Except.ok newOb)) :
    ((∃ a, db'.audits = db.audits ++ [a]
        ∧ a.ChangeLogs = obligationChangeLogs oldOb newOb) ↔
      ¬(oldOb.Topic = newOb.Topic ∧ oldOb.Typ = newOb.Typ ∧
        oldOb.Text = newOb.Text ∧
        oldOb.Classification = newOb.Classification ∧
        oldOb.Modifications = newOb.Modifications ∧
        oldOb.Comment = newOb.Comment ∧ oldOb.Active = newOb.Active ∧
        oldOb.TextUpdatable = newOb.TextUpdatable))
    ∧ ((oldOb.Topic = newOb.Topic ∧ oldOb.Typ = newOb.Typ ∧
        oldOb.Text = newOb.Text ∧
        oldOb.Classification = newOb.Classification ∧
        oldOb.Modifications = newOb.Modifications ∧
        oldOb.Comment = newOb.Comment ∧ oldOb.Active = newOb.Active ∧
        oldOb.TextUpdatable = newOb.TextUpdatable) →
      db'.audits = db.audits ∧ obligationChangeLogs oldOb newOb = []) := by
  obtain ⟨-, hnil, hne⟩ :=
    UpdateObligation_ok_spec md5hex db username topic updates db' newOb oldOb
      hold hrun
  constructor
  · constructor
    · rintro ⟨a, ha, -⟩ hsame
      have h0 : obligationChangeLogs oldOb newOb = [] :=
        (obligationChangeLogs_eq_nil_iff oldOb newOb).mpr hsame
      have := hnil h0
      rw [ha] at this
      have hlen := congrArg List.length this
      simp at hlen
    · intro hdiff
      exact hne (fun h =>
        hdiff ((obligationChangeLogs_eq_nil_iff oldOb newOb).mp h))
  · intro hsame
    have h0 : obligationChangeLogs oldOb newOb = [] :=
      (obligationChangeLogs_eq_nil_iff oldOb newOb).mpr hsame
    exact ⟨hnil h0, h0⟩

set_option maxHeartbeats 2000000 in
/-- Closed form of the validation phase: the three validation errors in
source order, else the sparse map with one slot per provided field. -/
theorem buildObligationUpdateMap_eq (md5hex : String → String)
    (oldOb : Obligation) (updates : ObligationPATCHRequestJSONSchema) :
    buildObligationUpdateMap md5hex oldOb updates =
      if updates.Text.Value ≠ "" ∧ ¬oldOb.TextUpdatable ∧
          updates.Text.Value ≠ oldOb.Text then
        Except.error (HandlerError.badRequest "Can not update obligation text")
      else if updates.Typ.IsNotUndefined ∧ updates.Typ.Value = "" then
        Except.error (HandlerError.badRequest "Type cannot be an empty string")
      else if updates.Classification.IsNotUndefined ∧
          updates.Classification.Value = "" then
        Except.error
          (HandlerError.badRequest "Classification cannot be an empty string")
      else Except.ok
        { md5 := if oldOb.TextUpdatable ∧
              (updates.Text.Value ≠ "" ∧ updates.Text.Value ≠ oldOb.Text) then
            some (md5hex updates.Text.Value) else none,
          text := if oldOb.TextUpdatable ∧
              (updates.Text.Value ≠ "" ∧ updates.Text.Value ≠ oldOb.Text) then
            some updates.Text.Value else none,
          typ := if updates.Typ.IsNotUndefined then
            some updates.Typ.Value else none,
          classification := if updates.Classification.IsNotUndefined then
            some updates.Classification.Value else none,
          modifications := if updates.Modifications.IsNotUndefined then
            some updates.Modifications.Value else none,
          comment := if updates.Comment.IsNotUndefined then
            some (if ¬updates.Comment.IsNull then
              { Str := updates.Comment.Value, Valid := true }
            else { Str := "", Valid := false }) else none,
          active := if updates.Active.IsNotUndefined then
            some updates.Active.Value else none,
          text_updatable := if updates.TextUpdatable.IsNotUndefined then
            some updates.TextUpdatable.Value else none } := by
  unfold buildObligationUpdateMap
  split_ifs <;> rfl

/-- C9: a partial update whose text field is explicitly present with the
empty string never fails with the text ValidationError and never changes the
stored text or digest, whatever the row's text-updatable flag and the row's
current text: the handler detects a text update by a non-empty value, not by
the tri-state wrapper. -/
theorem update_empty_text_keeps_text (md5hex : String → String) (db : DBState)
    (username topic : String) (updates : ObligationPATCHRequestJSONSchema)
    (oldOb : Obligation)
    (hold : db.obligations.find? (fun o => o.Topic = topic) = some oldOb)
    (hempty : updates.Text.Value = "") :
    (∀ db' r, UpdateObligation md5hex db username topic updates = (db', r) →
      r ≠ Except.error (HandlerError.badRequest "Can not update obligation text"))
    ∧ (∀ db' newOb,
        UpdateObligation md5hex db username topic updates
          = (db', Except.ok newOb) →
        newOb.Text = oldOb.Text ∧ newOb.Md5 = oldOb.Md5) := by
  have hb := buildObligationUpdateMap_eq md5hex oldOb updates
  rw [if_neg (fun h => h.1 hempty)] at hb
  constructor
  · intro db' r hrun
    simp only [UpdateObligation, hold] at hrun
    cases hbr : buildObligationUpdateMap md5hex oldOb updates with
    | error e =>
      simp only [hbr] at hrun
      injection hrun with hdb hr
      subst hr
      rw [hbr] at hb
      by_cases h2 : updates.Typ.IsNotUndefined ∧ updates.Typ.Value = ""
      · rw [if_pos h2] at hb
        injection hb with he
        subst he
        decide
      · rw [if_neg h2] at hb
        by_cases h3 : updates.Classification.IsNotUndefined ∧
            updates.Classification.Value = ""
        · rw [if_pos h3] at hb
          injection hb with he
          subst he
          decide
        · rw [if_neg h3] at hb
          exact Except.noConfusion hb
    | ok m =>
      simp only [hbr] at hrun
      cases hu : db.users.find? (fun u => u.Username = username) with
      | none =>
        simp only [hu] at hrun
        injection hrun with hdb hr
        subst hr
        decide
      | some user =>
        simp only [hu] at hrun
        injection hrun with hdb hr
        subst hr
        simp
  · intro db' newOb hrun
    obtain ⟨⟨m, hbm, hnew⟩, -, -⟩ :=
      UpdateObligation_ok_spec md5hex db username topic updates db' newOb oldOb
        hold hrun
    rw [hb] at hbm
    by_cases h2 : updates.Typ.IsNotUndefined ∧ updates.Typ.Value = ""
    · rw [if_pos h2] at hbm
      exact Except.noConfusion hbm
    · rw [if_neg h2] at hbm
      by_cases h3 : updates.Classification.IsNotUndefined ∧
          updates.Classification.Value = ""
      · rw [if_pos h3] at hbm
        exact Except.noConfusion hbm
      · rw [if_neg h3] at hbm
        injection hbm with hm
        subst hnew
        subst hm
        constructor
        · simp [applyObligationUpdateMap, hempty]
        · simp [applyObligationUpdateMap, hempty]

/-- C9 witness: a concrete run with `{"text": ""}` on a row whose text is
"hello" and text-updatable is false: no text error and text/digest kept. -/
theorem update_empty_text_keeps_text_witness :
    (∀ db' r, UpdateObligation (fun s => s)
        ⟨[⟨1, "T", "ty", "hello", "c", ⟨"", false⟩, false, true, false, "m"⟩],
         [], [⟨7, "bob"⟩], [], []⟩ "bob" "T"
        ⟨⟨false, ""⟩, ⟨false, ""⟩, ⟨true, ""⟩, ⟨false, ""⟩,
         ⟨false, false, ""⟩, ⟨false, false⟩, ⟨false, false⟩, ⟨false, false⟩⟩
        = (db', r) →
      r ≠ Except.error (HandlerError.badRequest "Can not update obligation text"))
    ∧ (∀ db' newOb, UpdateObligation (fun s => s)
        ⟨[⟨1, "T", "ty", "hello", "c", ⟨"", false⟩, false, true, false, "m"⟩],
         [], [⟨7, "bob"⟩], [], []⟩ "bob" "T"
        ⟨⟨false, ""⟩, ⟨false, ""⟩, ⟨true, ""⟩, ⟨false, ""⟩,
         ⟨false, false, ""⟩, ⟨false, false⟩, ⟨false, false⟩, ⟨false, false⟩⟩
        = (db', Except.ok newOb) →
      newOb.Text = "hello" ∧ newOb.Md5 = "m") :=
  update_empty_text_keeps_text (fun s => s)
    ⟨[⟨1, "T", "ty", "hello", "c", ⟨"", false⟩, false, true, false, "m"⟩],
     [], [⟨7, "bob"⟩], [], []⟩ "bob" "T"
    ⟨⟨false, ""⟩, ⟨false, ""⟩, ⟨true, ""⟩, ⟨false, ""⟩,
     ⟨false, false, ""⟩, ⟨false, false⟩, ⟨false, false⟩, ⟨false, false⟩⟩
    ⟨1, "T", "ty", "hello", "c", ⟨"", false⟩, false, true, false, "m"⟩
    (by decide) rfl

/-- C2 counterexample: the request `{"text": ""}` — the text field explicitly
present with the empty string, which differs from the row's text "hello" —
against a row with text-updatable = false does NOT fail with a
ValidationError: the update succeeds (the claim as stated requires a
ValidationError here). The last conjunct shows `{"text": ""}` decodes to the
present-state wrapper the handler receives. -/
theorem update_text_provided_empty_not_rejected :
    (UpdateObligation (fun s => s)
        ⟨[⟨1, "T", "ty", "hello", "c", ⟨"", false⟩, false, true, false, "m"⟩],
         [], [⟨7, "bob"⟩], [], []⟩ "bob" "T"
        ⟨⟨false, ""⟩, ⟨false, ""⟩, ⟨true, ""⟩, ⟨false, ""⟩,
         ⟨false, false, ""⟩, ⟨false, false⟩, ⟨false, false⟩,
         ⟨false, false⟩⟩).2
      = Except.ok ⟨1, "T", "ty", "hello", "c", ⟨"", false⟩, false, true,
          false, "m"⟩
    ∧ ("" : String) ≠ "hello"
    ∧ decodeOptionalField decodeString "" (some (Jsn.str ""))
      = Except.ok ⟨true, ""⟩ := by
  decide

/-- C2 (amended): for every partial update whose text field is provided with
a NON-EMPTY value differing from the current row's text: if the row has
text-updatable = false the update fails with the text ValidationError and
the whole transaction leaves the database unchanged (row untouched, no audit
written); if text-updatable = true the new text is accepted and the digest
is recomputed from it. -/
theorem update_text_policy (md5hex : String → String) (db : DBState)
    (username topic : String) (updates : ObligationPATCHRequestJSONSchema)
    (oldOb : Obligation)
    (hold : db.obligations.find? (fun o => o.Topic = topic) = some oldOb)
    (hne : updates.Text.Value ≠ "")
    (hdiff : updates.Text.Value ≠ oldOb.Text) :
    (oldOb.TextUpdatable = false →
      UpdateObligation md5hex db username topic updates =
        (db, Except.error
          (HandlerError.badRequest "Can not update obligation text")))
    ∧ (oldOb.TextUpdatable = true →
      ∀ db' newOb,
        UpdateObligation md5hex db username topic updates
          = (db', Except.ok newOb) →
        newOb.Text = updates.Text.Value
          ∧ newOb.Md5 = md5hex updates.Text.Value) := by
  constructor
  · intro hTU
    have hcond : updates.Text.Value ≠ "" ∧ ¬oldOb.TextUpdatable ∧
        updates.Text.Value ≠ oldOb.Text := ⟨hne, by simp [hTU], hdiff⟩
    have hberr : buildObligationUpdateMap md5hex oldOb updates
        = Except.error
            (HandlerError.badRequest "Can not update obligation text") := by
      rw [buildObligationUpdateMap_eq, if_pos hcond]
    simp only [UpdateObligation, hold, hberr]
  · intro hTU db' newOb hrun
    obtain ⟨⟨m, hbm, hnew⟩, -, -⟩ :=
      UpdateObligation_ok_spec md5hex db username topic updates db' newOb oldOb
        hold hrun
    rw [buildObligationUpdateMap_eq] at hbm
    rw [if_neg (fun h => h.2.1 (by simp [hTU]))] at hbm
    by_cases h2 : updates.Typ.IsNotUndefined ∧ updates.Typ.Value = ""
    · rw [if_pos h2] at hbm
      exact Except.noConfusion hbm
    · rw [if_neg h2] at hbm
      by_cases h3 : updates.Classification.IsNotUndefined ∧
          updates.Classification.Value = ""
      · rw [if_pos h3] at hbm
        exact Except.noConfusion hbm
      · rw [if_neg h3] at hbm
        injection hbm with hm
        subst hnew
        subst hm
        have hc : oldOb.TextUpdatable ∧ (updates.Text.Value ≠ "" ∧
            updates.Text.Value ≠ oldOb.Text) := ⟨by simp [hTU], hne, hdiff⟩
        constructor
        · simp [applyObligationUpdateMap, if_pos hc]
        · simp [applyObligationUpdateMap, if_pos hc]

/-- C2 witness: a concrete run: `{"text": "bye"}` against a row with text
"hello" and text-updatable = false fails with the text ValidationError and
leaves the database unchanged. -/
theorem update_text_policy_witness :
    UpdateObligation (fun s => s)
      ⟨[⟨1, "T", "ty", "hello", "c", ⟨"", false⟩, false, true, false, "m"⟩],
       [], [⟨7, "bob"⟩], [], []⟩ "bob" "T"
      ⟨⟨false, ""⟩, ⟨false, ""⟩, ⟨true, "bye"⟩, ⟨false, ""⟩,
       ⟨false, false, ""⟩, ⟨false, false⟩, ⟨false, false⟩, ⟨false, false⟩⟩
    = (⟨[⟨1, "T", "ty", "hello", "c", ⟨"", false⟩, false, true, false, "m"⟩],
        [], [⟨7, "bob"⟩], [], []⟩,
       Except.error
         (HandlerError.badRequest "Can not update obligation text")) :=
  (update_text_policy (fun s => s)
    ⟨[⟨1, "T", "ty", "hello", "c", ⟨"", false⟩, false, true, false, "m"⟩],
     [], [⟨7, "bob"⟩], [], []⟩ "bob" "T"
    ⟨⟨false, ""⟩, ⟨false, ""⟩, ⟨true, "bye"⟩, ⟨false, ""⟩,
     ⟨false, false, ""⟩, ⟨false, false⟩, ⟨false, false⟩, ⟨false, false⟩⟩
    ⟨1, "T", "ty", "hello", "c", ⟨"", false⟩, false, true, false, "m"⟩
    (by decide) (by decide) (by decide)).1 rfl

/-- C6 witness: a no-op update (all fields undefined) on a concrete row:
the audit list stays empty and the diff list is empty. -/
theorem update_audit_iff_tracked_change_witness :
    ((∃ a, ([] : List Audit) = [] ++ [a]
        ∧ a.ChangeLogs = obligationChangeLogs
            ⟨1, "T", "ty", "hello", "c", ⟨"", false⟩, false, true, false, "m"⟩
            ⟨1, "T", "ty", "hello", "c", ⟨"", false⟩, false, true, false,
              "m"⟩) ↔
      ¬(("T" : String) = "T" ∧ ("ty" : String) = "ty" ∧
        ("hello" : String) = "hello" ∧ ("c" : String) = "c" ∧
        false = false ∧ (⟨"", false⟩ : NullString) = ⟨"", false⟩ ∧
        true = true ∧ false = false))
    ∧ ((("T" : String) = "T" ∧ ("ty" : String) = "ty" ∧
        ("hello" : String) = "hello" ∧ ("c" : String) = "c" ∧
        false = false ∧ (⟨"", false⟩ : NullString) = ⟨"", false⟩ ∧
        true = true ∧ false = false) →
      ([] : List Audit) = [] ∧ obligationChangeLogs
        ⟨1, "T", "ty", "hello", "c", ⟨"", false⟩, false, true, false, "m"⟩
        ⟨1, "T", "ty", "hello", "c", ⟨"", false⟩, false, true, false, "m"⟩
        = []) :=
  update_audit_iff_tracked_change (fun s => s)
    ⟨[⟨1, "T", "ty", "hello", "c", ⟨"", false⟩, false, true, false, "m"⟩],
     [], [⟨7, "bob"⟩], [], []⟩ "bob" "T"
    ⟨⟨false, ""⟩, ⟨false, ""⟩, ⟨false, ""⟩, ⟨false, ""⟩,
     ⟨false, false, ""⟩, ⟨false, false⟩, ⟨false, false⟩, ⟨false, false⟩⟩
    ⟨[⟨1, "T", "ty", "hello", "c", ⟨"", false⟩, false, true, false, "m"⟩],
     [], [⟨7, "bob"⟩], [], []⟩
    ⟨1, "T", "ty", "hello", "c", ⟨"", false⟩, false, true, false, "m"⟩
    ⟨1, "T", "ty", "hello", "c", ⟨"", false⟩, false, true, false, "m"⟩
    (by decide) (by decide)

/-- C5 counterexample: creating topic "T1" when a row with topic "T1" and
the 5-byte text "hello" already exists does NOT fail with the ConflictError
the claim asserts: the handler evaluates `obligation.Text[0:10]` on the
matched row while building the error detail and panics (recovered to a 500),
because the text is shorter than 10 bytes. -/
theorem create_conflict_short_text_panics :
    CreateObligation (fun s => s)
      ⟨[⟨1, "T1", "ty", "hello", "c", ⟨"", false⟩, false, true, false,
          "hello"⟩], [], [], [], []⟩
      ⟨"T1", "ty2", "other text", "c2", ⟨"", false⟩, false, true, []⟩
    = (⟨[⟨1, "T1", "ty", "hello", "c", ⟨"", false⟩, false, true, false,
          "hello"⟩], [], [], [], []⟩,
       Except.error (HandlerError.runtimePanic "slice bounds out of range"))
    ∧ HandlerError.runtimePanic "slice bounds out of range"
      ≠ HandlerError.conflict
          "can not create obligation with same topic or text" := by
  decide

/-- C5 (amended): a create request whose topic matches an existing
obligation's topic, or whose text digest matches an existing obligation's
digest, never inserts a row and leaves the database — in particular the
pre-existing row — completely unchanged; it fails with the ConflictError
when the matched row's text is at least 10 bytes, and otherwise with a
recovered runtime panic from slicing `Text[0:10]` in the error detail. -/
theorem create_conflict_no_insert (md5hex : String → String) (db : DBState)
    (input : ObligationPOSTRequestJSONSchema) (e : Obligation)
    (hmem : e ∈ db.obligations)
    (hmatch : e.Topic = input.Topic ∨ e.Md5 = md5hex input.Text) :
    ∃ found, db.obligations.find?
        (fun o => o.Topic = input.Topic ∨ o.Md5 = md5hex input.Text)
        = some found
      ∧ CreateObligation md5hex db input =
          (db, Except.error (if 10 ≤ found.Text.utf8ByteSize then
              HandlerError.conflict
                "can not create obligation with same topic or text"
            else HandlerError.runtimePanic "slice bounds out of range")) := by
  cases hf : db.obligations.find?
      (fun o => o.Topic = input.Topic ∨ o.Md5 = md5hex input.Text) with
  | none =>
    exfalso
    have h := List.find?_eq_none.mp hf e hmem
    simp only [decide_eq_true_eq] at h
    exact h hmatch
  | some found =>
    refine ⟨found, rfl, ?_⟩
    simp only [CreateObligation, hf]
    by_cases hlen : 10 ≤ found.Text.utf8ByteSize
    · simp only [if_pos hlen]
    · simp only [if_neg hlen]

/-- C5 witness: creating topic "T1" when a row with topic "T1" and the
12-byte text "hello, world" already exists fails with the ConflictError and
changes nothing. -/
theorem create_conflict_no_insert_witness :
    ∃ found,
      ([⟨1, "T1", "ty", "hello, world", "c", ⟨"", false⟩, false, true, false,
          "hello, world"⟩] : List Obligation).find?
        (fun o => o.Topic = "T1" ∨ o.Md5 = "other text")
        = some found
      ∧ CreateObligation (fun s => s)
          ⟨[⟨1, "T1", "ty", "hello, world", "c", ⟨"", false⟩, false, true,
              false, "hello, world"⟩], [], [], [], []⟩
          ⟨"T1", "ty2", "other text", "c2", ⟨"", false⟩, false, true, []⟩
        = (⟨[⟨1, "T1", "ty", "hello, world", "c", ⟨"", false⟩, false, true,
              false, "hello, world"⟩], [], [], [], []⟩,
           Except.error (if 10 ≤ found.Text.utf8ByteSize then
              HandlerError.conflict
                "can not create obligation with same topic or text"
            else HandlerError.runtimePanic "slice bounds out of range")) :=
  create_conflict_no_insert (fun s => s)
    ⟨[⟨1, "T1", "ty", "hello, world", "c", ⟨"", false⟩, false, true, false,
        "hello, world"⟩], [], [], [], []⟩
    ⟨"T1", "ty2", "other text", "c2", ⟨"", false⟩, false, true, []⟩
    ⟨1, "T1", "ty", "hello, world", "c", ⟨"", false⟩, false, true, false,
      "hello, world"⟩
    (by decide) (by decide)

/-- C10: deactivating a known topic writes no audit record and no change log
entry: the audit list (and every other table) is untouched, and the only row
change is the loaded row saved back with `Active := false`, all its other
fields kept. -/
theorem delete_soft_no_audit (db : DBState) (topic : String)
    (row : Obligation) (db' : DBState) (r : Except HandlerError Unit)
    (hold : db.obligations.find? (fun o => o.Topic = topic) = some row)
    (hrun : DeleteObligation db topic = (db', r)) :
    r = Except.ok ()
    ∧ db'.audits = db.audits
    ∧ db'.users = db.users
    ∧ db'.licenses = db.licenses
    ∧ db'.obligationMaps = db.obligationMaps
    ∧ db'.obligations = db.obligations.map
        (fun o => if o.Id = row.Id then { row with Active := false } else o) := by
  simp only [DeleteObligation, hold] at hrun
  injection hrun with h1 h2
  subst h1
  subst h2
  exact ⟨rfl, rfl, rfl, rfl, rfl, rfl⟩

/-- C10 witness: deactivating topic "T" on a one-row database: status 204,
audits untouched, the row saved back with only `Active` cleared. -/
theorem delete_soft_no_audit_witness :
    (Except.ok () : Except HandlerError Unit) = Except.ok ()
    ∧ ([] : List Audit) = []
    ∧ ([⟨7, "bob"⟩] : List User) = [⟨7, "bob"⟩]
    ∧ ([] : List LicenseDB) = []
    ∧ ([] : List ObligationMap) = []
    ∧ ([⟨1, "T", "ty", "hello", "c", ⟨"", false⟩, false, false, false, "m"⟩]
        : List Obligation)
      = [⟨1, "T", "ty", "hello", "c", ⟨"", false⟩, false, true, false,
          "m"⟩].map (fun o => if o.Id = (1 : Int) then
            ⟨1, "T", "ty", "hello", "c", ⟨"", false⟩, false, false, false,
              "m"⟩ else o) :=
  delete_soft_no_audit
    ⟨[⟨1, "T", "ty", "hello", "c", ⟨"", false⟩, false, true, false, "m"⟩],
     [], [⟨7, "bob"⟩], [], []⟩ "T"
    ⟨1, "T", "ty", "hello", "c", ⟨"", false⟩, false, true, false, "m"⟩
    ⟨[⟨1, "T", "ty", "hello", "c", ⟨"", false⟩, false, false, false, "m"⟩],
     [], [⟨7, "bob"⟩], [], []⟩
    (Except.ok ()) (by decide) (by decide)

end LicenseDb
